import Mathlib

/-!
Shallow embedding of the provider-registry core of the tambourine voice
dictation server: `src/server/services/providers.py`,
`src/server/api/config_server.py` and `src/server/config/settings.py`.

Python `str | None` credential fields become `Option String`; Python
truthiness (`if not settings.x`) becomes `truthy`.  The vendor SDK
constructors (pipecat services, out of scope per the spec) are modelled as
an oracle parameter that either returns an opaque `ServiceInstance` or
fails with an arbitrary error message; the factory functions in
`providers.py` are embedded on top of that oracle.  Fallible code returns
`Except`.  The `logger.warning` calls of the registry builder are made
observable as a second list component of the build result.
-/

namespace Tambourine

/-- `STTProvider` enum of providers.py: available speech-to-text providers,
in declaration order. -/
inductive STTProvider where
  | assemblyai
  | cartesia
  | deepgram
  deriving DecidableEq, Repr

/-- `LLMProvider` enum of providers.py: available language-model providers,
in declaration order. -/
inductive LLMProvider where
  | openai
  | gemini
  | anthropic
  | cerebras
  | groq
  deriving DecidableEq, Repr

/-- The string value of each `STTProvider` member (it is a `str` enum). -/
def STTProvider.value : STTProvider → String
  | .assemblyai => "assemblyai"
  | .cartesia => "cartesia"
  | .deepgram => "deepgram"

/-- The string value of each `LLMProvider` member (it is a `str` enum). -/
def LLMProvider.value : LLMProvider → String
  | .openai => "openai"
  | .gemini => "gemini"
  | .anthropic => "anthropic"
  | .cerebras => "cerebras"
  | .groq => "groq"

/-- The catalog of STT provider identifiers: all members of the
`STTProvider` enumeration, in declaration order. -/
def STTProvider.catalog : List STTProvider :=
  [.assemblyai, .cartesia, .deepgram]

/-- The catalog of LLM provider identifiers: all members of the
`LLMProvider` enumeration, in declaration order. -/
def LLMProvider.catalog : List LLMProvider :=
  [.openai, .gemini, .anthropic, .cerebras, .groq]

/-- `STT_PROVIDER_LABELS` of providers.py: display names for the UI. -/
def STT_PROVIDER_LABELS : STTProvider → String
  | .assemblyai => "AssemblyAI"
  | .cartesia => "Cartesia"
  | .deepgram => "Deepgram"

/-- `LLM_PROVIDER_LABELS` of providers.py: display names for the UI. -/
def LLM_PROVIDER_LABELS : LLMProvider → String
  | .openai => "OpenAI"
  | .gemini => "Google Gemini"
  | .anthropic => "Anthropic"
  | .cerebras => "Cerebras"
  | .groq => "Groq"

/-- The credential fields of `Settings` (settings.py): each API key is a
`str | None` defaulting to `None`.  The non-credential fields
(default providers, log level, dictation host/port) play no part in the
registry and are omitted. -/
structure Settings where
  assemblyai_api_key : Option String := none
  cartesia_api_key : Option String := none
  deepgram_api_key : Option String := none
  openai_api_key : Option String := none
  google_api_key : Option String := none
  anthropic_api_key : Option String := none
  cerebras_api_key : Option String := none
  groq_api_key : Option String := none
  deriving DecidableEq, Repr

/-- Python truthiness of a `str | None` value: `None` and the empty string
are falsy, every other string is truthy. -/
def truthy : Option String → Bool
  | none => false
  | some s => s ≠ ""

/-- The credential that each STT provider requires, as read from the
settings by create_stt_service and get_available_stt_providers. -/
def stt_required_credential (provider : STTProvider) (settings : Settings) :
    Option String :=
  match provider with
  | .assemblyai => settings.assemblyai_api_key
  | .cartesia => settings.cartesia_api_key
  | .deepgram => settings.deepgram_api_key

/-- The credential that each LLM provider requires, as read from the
settings by create_llm_service and get_available_llm_providers
(`GEMINI` reads `google_api_key`). -/
def llm_required_credential (provider : LLMProvider) (settings : Settings) :
    Option String :=
  match provider with
  | .openai => settings.openai_api_key
  | .gemini => settings.google_api_key
  | .anthropic => settings.anthropic_api_key
  | .cerebras => settings.cerebras_api_key
  | .groq => settings.groq_api_key

/-- An opaque constructed client object (a pipecat service instance).
`has_model_name` records whether the Python object exposes a `model_name`
attribute; when it does, `model_name` holds its value (`none` for Python
`None`). -/
structure ServiceInstance where
  has_model_name : Bool := false
  model_name : Option String := none
  deriving DecidableEq, Repr

/-- An error raised by the service factory: either the `ValueError` for a
missing API key raised by providers.py itself, or any exception escaping
the external vendor constructor. -/
inductive FactoryError where
  | missingCredential (msg : String)
  | constructionFailure (msg : String)
  deriving DecidableEq, Repr

/-- `str(e)` for a factory error. -/
def FactoryError.message : FactoryError → String
  | .missingCredential msg => msg
  | .constructionFailure msg => msg

/-- The non-credential keyword arguments passed to an LLM vendor
constructor.  In providers.py only the Cerebras branch passes any:
`retry_on_timeout=True, retry_timeout_secs=10.0`. -/
structure LLMConstructorArgs where
  api_key : String
  retry_on_timeout : Option Bool := none
  retry_timeout_secs : Option ℚ := none
  deriving DecidableEq, Repr

/-- The external STT vendor constructors (e.g. `CartesiaSTTService`),
abstracted as an oracle: given the provider and the API key passed to the
constructor, either return an instance or fail with an exception
message. -/
def SttSdk : Type :=
  STTProvider → String → Except String ServiceInstance

/-- The external LLM vendor constructors, abstracted as an oracle over the
provider and the full keyword arguments providers.py passes. -/
def LlmSdk : Type :=
  LLMProvider → LLMConstructorArgs → Except String ServiceInstance

/-- `create_stt_service` of providers.py: raise `ValueError` (modelled as
`FactoryError.missingCredential`) when the provider's API key is not
configured, otherwise call the vendor constructor with that key; any
exception it raises is surfaced as `FactoryError.constructionFailure`.
The trailing `Unknown STT provider` raise of the Python function is
unreachable here because the match on the enum is exhaustive. -/
def create_stt_service (sdk : SttSdk) (provider : STTProvider)
    (settings : Settings) : Except FactoryError ServiceInstance :=
  match provider with
  | .assemblyai =>
      if !truthy settings.assemblyai_api_key then
        .error (.missingCredential "AssemblyAI API key not configured")
      else
        (sdk .assemblyai (settings.assemblyai_api_key.getD "")).mapError
          FactoryError.constructionFailure
  | .cartesia =>
      if !truthy settings.cartesia_api_key then
        .error (.missingCredential "Cartesia API key not configured")
      else
        (sdk .cartesia (settings.cartesia_api_key.getD "")).mapError
          FactoryError.constructionFailure
  | .deepgram =>
      if !truthy settings.deepgram_api_key then
        .error (.missingCredential "Deepgram API key not configured")
      else
        (sdk .deepgram (settings.deepgram_api_key.getD "")).mapError
          FactoryError.constructionFailure

/-- `create_llm_service` of providers.py.  Every branch checks the
provider's API key and then calls the vendor constructor; only the
Cerebras branch passes the extra hard-coded retry parameters
`retry_on_timeout=True, retry_timeout_secs=10.0`. -/
def create_llm_service (sdk : LlmSdk) (provider : LLMProvider)
    (settings : Settings) : Except FactoryError ServiceInstance :=
  match provider with
  | .openai =>
      if !truthy settings.openai_api_key then
        .error (.missingCredential "OpenAI API key not configured")
      else
        (sdk .openai { api_key := settings.openai_api_key.getD "" }).mapError
          FactoryError.constructionFailure
  | .gemini =>
      if !truthy settings.google_api_key then
        .error (.missingCredential "Google API key not configured")
      else
        (sdk .gemini { api_key := settings.google_api_key.getD "" }).mapError
          FactoryError.constructionFailure
  | .anthropic =>
      if !truthy settings.anthropic_api_key then
        .error (.missingCredential "Anthropic API key not configured")
      else
        (sdk .anthropic
          { api_key := settings.anthropic_api_key.getD "" }).mapError
          FactoryError.constructionFailure
  | .cerebras =>
      if !truthy settings.cerebras_api_key then
        .error (.missingCredential "Cerebras API key not configured")
      else
        (sdk .cerebras
          { api_key := settings.cerebras_api_key.getD ""
            retry_on_timeout := some true
            retry_timeout_secs := some 10 }).mapError
          FactoryError.constructionFailure
  | .groq =>
      if !truthy settings.groq_api_key then
        .error (.missingCredential "Groq API key not configured")
      else
        (sdk .groq { api_key := settings.groq_api_key.getD "" }).mapError
          FactoryError.constructionFailure

/-- `get_available_stt_providers` of providers.py: the STT providers whose
API key is configured, appended in the function's fixed check order. -/
def get_available_stt_providers (settings : Settings) : List STTProvider :=
  (if truthy settings.assemblyai_api_key then [STTProvider.assemblyai] else [])
    ++ (if truthy settings.cartesia_api_key then [STTProvider.cartesia] else [])
    ++ (if truthy settings.deepgram_api_key then [STTProvider.deepgram] else [])

/-- `get_available_llm_providers` of providers.py: the LLM providers whose
API key is configured, appended in the function's fixed check order. -/
def get_available_llm_providers (settings : Settings) : List LLMProvider :=
  (if truthy settings.openai_api_key then [LLMProvider.openai] else [])
    ++ (if truthy settings.google_api_key then [LLMProvider.gemini] else [])
    ++ (if truthy settings.anthropic_api_key then [LLMProvider.anthropic] else [])
    ++ (if truthy settings.cerebras_api_key then [LLMProvider.cerebras] else [])
    ++ (if truthy settings.groq_api_key then [LLMProvider.groq] else [])

/-- The loop body of `create_all_available_stt_services`: walk the given
provider list in order; a successful construction is inserted into the
services mapping (association list, insertion order), a failure is skipped
and recorded as a `(provider, str(e))` warning (the `logger.warning`
call, made observable). -/
def build_stt_services (sdk : SttSdk) (settings : Settings) :
    List STTProvider →
      List (STTProvider × ServiceInstance) × List (STTProvider × String)
  | [] => ([], [])
  | provider :: rest =>
      let r := build_stt_services sdk settings rest
      match create_stt_service sdk provider settings with
      | .ok service => ((provider, service) :: r.1, r.2)
      | .error e => (r.1, (provider, e.message) :: r.2)

/-- The loop body of `create_all_available_llm_services`, exactly as the
STT one. -/
def build_llm_services (sdk : LlmSdk) (settings : Settings) :
    List LLMProvider →
      List (LLMProvider × ServiceInstance) × List (LLMProvider × String)
  | [] => ([], [])
  | provider :: rest =>
      let r := build_llm_services sdk settings rest
      match create_llm_service sdk provider settings with
      | .ok service => ((provider, service) :: r.1, r.2)
      | .error e => (r.1, (provider, e.message) :: r.2)

/-- `create_all_available_stt_services` of providers.py: build the
services mapping over the available providers.  First component: the
returned dictionary (as an insertion-ordered association list); second:
the warnings logged for skipped providers. -/
def create_all_available_stt_services (sdk : SttSdk) (settings : Settings) :
    List (STTProvider × ServiceInstance) × List (STTProvider × String) :=
  build_stt_services sdk settings (get_available_stt_providers settings)

/-- `create_all_available_llm_services` of providers.py. -/
def create_all_available_llm_services (sdk : LlmSdk) (settings : Settings) :
    List (LLMProvider × ServiceInstance) × List (LLMProvider × String) :=
  build_llm_services sdk settings (get_available_llm_providers settings)

/-- Modelled from the spec: `STTProviderId.WHISPER` comes from the
`services/provider_registry` module, which is not among the source files;
config_server.py compares registry keys against it with `str`-enum
equality, and the spec describes it as the hardcoded identity of the one
local speech-recognition engine, whose stable string token is
`"whisper"`. -/
def STTProviderId_WHISPER : String := "whisper"

/-- Modelled from the spec: `LLMProviderId.OLLAMA` from the missing
`services/provider_registry` module, the hardcoded identity of the one
local language model, whose stable string token is `"ollama"`. -/
def LLMProviderId_OLLAMA : String := "ollama"

/-- Modelled from the spec: `get_stt_provider_labels` from the missing
`services/provider_registry` module.  The spec's scenario produces the
labels "Cartesia" etc., the same human-readable labels that
`STT_PROVIDER_LABELS` in providers.py declares, so the lookup is modelled
by that table (total, so the `labels.get(id, id.value)` fallback of
config_server.py is never taken). -/
def get_stt_provider_labels (provider : STTProvider) : String :=
  STT_PROVIDER_LABELS provider

/-- Modelled from the spec: `get_llm_provider_labels` from the missing
`services/provider_registry` module, modelled by `LLM_PROVIDER_LABELS`
of providers.py exactly as the STT labels are. -/
def get_llm_provider_labels (provider : LLMProvider) : String :=
  LLM_PROVIDER_LABELS provider

/-- The module-level registry state of config_server.py:
`_available_stt_services` and `_available_llm_services`, dictionaries
modelled as insertion-ordered association lists. -/
structure RegistryState where
  stt_services : List (STTProvider × ServiceInstance) := []
  llm_services : List (LLMProvider × ServiceInstance) := []
  deriving DecidableEq, Repr

/-- The state of config_server.py before `set_available_providers` has
run: both module-level dictionaries are initialised to `{}`. -/
def initial_registry_state : RegistryState := {}

/-- `set_available_providers` of config_server.py: overwrite both
module-level dictionaries with the given ones. -/
def set_available_providers (stt : List (STTProvider × ServiceInstance))
    (llm : List (LLMProvider × ServiceInstance)) : RegistryState :=
  { stt_services := stt, llm_services := llm }

/-- The `ProviderInfo` response model of config_server.py:
`model` defaults to `None` and is omitted from the JSON when null. -/
structure ProviderInfo where
  value : String
  label : String
  is_local : Bool
  model : Option String := none
  deriving DecidableEq, Repr

/-- The `AvailableProvidersResponse` model of config_server.py. -/
structure AvailableProvidersResponse where
  stt : List ProviderInfo
  llm : List ProviderInfo
  deriving DecidableEq, Repr

/-- The `model` expression of `get_available_providers`:
`service.model_name if hasattr(service, "model_name") and
service.model_name else None`; the Python truthiness test on the
attribute makes `None` and the empty string fall to the else branch. -/
def published_model (service : ServiceInstance) : Option String :=
  if service.has_model_name
      && (match service.model_name with
          | some m => m ≠ ""
          | none => false) then
    service.model_name
  else
    none

/-- `get_available_providers` of config_server.py (the handler of
GET /api/providers/available): one `ProviderInfo` per entry of each
module-level dictionary, with `is_local` the `str`-enum equality of the
key against the designated local identifier of its kind. -/
def get_available_providers (st : RegistryState) :
    AvailableProvidersResponse :=
  { stt := st.stt_services.map (fun ps =>
      { value := ps.1.value
        label := get_stt_provider_labels ps.1
        is_local := ps.1.value == STTProviderId_WHISPER
        model := published_model ps.2 })
    llm := st.llm_services.map (fun ps =>
      { value := ps.1.value
        label := get_llm_provider_labels ps.1
        is_local := ps.1.value == LLMProviderId_OLLAMA
        model := published_model ps.2 }) }

/-- The startup composition the spec describes: the registries built by
providers.py are installed into config_server.py via
`set_available_providers` (the warnings only go to the log). -/
def startup_registry_state (sttSdk : SttSdk) (llmSdk : LlmSdk)
    (settings : Settings) : RegistryState :=
  set_available_providers
    (create_all_available_stt_services sttSdk settings).1
    (create_all_available_llm_services llmSdk settings).1

/-- Whether an `Except` result is a success. -/
def exceptIsOk {ε α : Type} : Except ε α → Bool
  | .ok _ => true
  | .error _ => false

/-- A sample STT vendor-constructor oracle whose every construction
succeeds with a fresh opaque instance. -/
def demo_stt_sdk : SttSdk := fun _ _ => .ok {}

/-- A sample LLM vendor-constructor oracle whose every construction
succeeds with a fresh opaque instance. -/
def demo_llm_sdk : LlmSdk := fun _ _ => .ok {}

/-- A sample STT oracle whose Cartesia constructor raises (a malformed
key, say) while every other construction succeeds. -/
def failing_cartesia_sdk : SttSdk := fun provider _ =>
  if provider = .cartesia then .error "bad key format" else .ok {}

/-- A sample LLM oracle whose Cerebras constructor raises while every
other construction succeeds. -/
def failing_cerebras_sdk : LlmSdk := fun provider _ =>
  if provider = .cerebras then .error "bad key format" else .ok {}

/-- A settings snapshot holding every credential. -/
def all_keys_settings : Settings :=
  { assemblyai_api_key := some "ak"
    cartesia_api_key := some "ck"
    deepgram_api_key := some "dk"
    openai_api_key := some "ok"
    google_api_key := some "gk"
    anthropic_api_key := some "nk"
    cerebras_api_key := some "bk"
    groq_api_key := some "qk" }

/-- A settings snapshot holding only a Cartesia STT key and a Cerebras
LLM key. -/
def cartesia_cerebras_settings : Settings :=
  { cartesia_api_key := some "ck"
    cerebras_api_key := some "bk" }

/-- A sample STT oracle returning distinct instances (with a model name)
from `demo_stt_sdk`, succeeding everywhere. -/
def demo_stt_sdk_b : SttSdk := fun _ _ =>
  .ok { has_model_name := true, model_name := some "model-b" }

/-- A sample LLM oracle returning distinct instances (with a model name)
from `demo_llm_sdk`, succeeding everywhere. -/
def demo_llm_sdk_b : LlmSdk := fun _ _ =>
  .ok { has_model_name := true, model_name := some "model-b" }

/-- A sample installed registry state: a Cartesia instance that exposes a
model name, a Deepgram instance that does not, and a Cerebras instance
whose model-name attribute is the empty string. -/
def demo_registry_state : RegistryState :=
  { stt_services :=
      [(.cartesia, { has_model_name := true, model_name := some "ink" }),
        (.deepgram, {})]
    llm_services :=
      [(.cerebras, { has_model_name := true, model_name := some "" })] }

/-- Each pair of the services mapping built by `build_stt_services` came
from a provider of the input list whose construction succeeded with
exactly that instance. -/
theorem build_stt_services_mem_elim (sdk : SttSdk) (settings : Settings)
    (l : List STTProvider) (pr : STTProvider × ServiceInstance)
    (h : pr ∈ (build_stt_services sdk settings l).1) :
    pr.1 ∈ l ∧ create_stt_service sdk pr.1 settings = .ok pr.2 := by
  induction l with
  | nil => simp [build_stt_services] at h
  | cons p rest ih =>
    rw [build_stt_services] at h
    cases hc : create_stt_service sdk p settings with
    | ok service =>
      rw [hc] at h
      rcases List.mem_cons.mp h with h1 | h1
      · subst h1
        exact ⟨List.mem_cons_self _ _, hc⟩
      · rcases ih h1 with ⟨hm, hok⟩
        exact ⟨List.mem_cons_of_mem _ hm, hok⟩
    | error e =>
      rw [hc] at h
      rcases ih h with ⟨hm, hok⟩
      exact ⟨List.mem_cons_of_mem _ hm, hok⟩

/-- Each pair of the services mapping built by `build_llm_services` came
from a provider of the input list whose construction succeeded with
exactly that instance. -/
theorem build_llm_services_mem_elim (sdk : LlmSdk) (settings : Settings)
    (l : List LLMProvider) (pr : LLMProvider × ServiceInstance)
    (h : pr ∈ (build_llm_services sdk settings l).1) :
    pr.1 ∈ l ∧ create_llm_service sdk pr.1 settings = .ok pr.2 := by
  induction l with
  | nil => simp [build_llm_services] at h
  | cons p rest ih =>
    rw [build_llm_services] at h
    cases hc : create_llm_service sdk p settings with
    | ok service =>
      rw [hc] at h
      rcases List.mem_cons.mp h with h1 | h1
      · subst h1
        exact ⟨List.mem_cons_self _ _, hc⟩
      · rcases ih h1 with ⟨hm, hok⟩
        exact ⟨List.mem_cons_of_mem _ hm, hok⟩
    | error e =>
      rw [hc] at h
      rcases ih h with ⟨hm, hok⟩
      exact ⟨List.mem_cons_of_mem _ hm, hok⟩

/-- A provider of the input list whose construction succeeds lands, with
its instance, in the services mapping built by `build_stt_services`. -/
theorem build_stt_services_mem_intro (sdk : SttSdk) (settings : Settings)
    (l : List STTProvider) (p : STTProvider) (service : ServiceInstance)
    (hm : p ∈ l) (hok : create_stt_service sdk p settings = .ok service) :
    (p, service) ∈ (build_stt_services sdk settings l).1 := by
  induction l with
  | nil => simp at hm
  | cons q rest ih =>
    rw [build_stt_services]
    rcases List.mem_cons.mp hm with h1 | h1
    · subst h1
      rw [hok]
      exact List.mem_cons_self _ _
    · cases hc : create_stt_service sdk q settings with
      | ok s2 => exact List.mem_cons_of_mem _ (ih h1)
      | error e => exact ih h1

/-- A provider of the input list whose construction succeeds lands, with
its instance, in the services mapping built by `build_llm_services`. -/
theorem build_llm_services_mem_intro (sdk : LlmSdk) (settings : Settings)
    (l : List LLMProvider) (p : LLMProvider) (service : ServiceInstance)
    (hm : p ∈ l) (hok : create_llm_service sdk p settings = .ok service) :
    (p, service) ∈ (build_llm_services sdk settings l).1 := by
  induction l with
  | nil => simp at hm
  | cons q rest ih =>
    rw [build_llm_services]
    rcases List.mem_cons.mp hm with h1 | h1
    · subst h1
      rw [hok]
      exact List.mem_cons_self _ _
    · cases hc : create_llm_service sdk q settings with
      | ok s2 => exact List.mem_cons_of_mem _ (ih h1)
      | error e => exact ih h1

/-- A provider of the input list whose construction fails lands, with the
error's message, in the warnings of `build_stt_services`. -/
theorem build_stt_services_warn_intro (sdk : SttSdk) (settings : Settings)
    (l : List STTProvider) (p : STTProvider) (e : FactoryError)
    (hm : p ∈ l) (he : create_stt_service sdk p settings = .error e) :
    (p, e.message) ∈ (build_stt_services sdk settings l).2 := by
  induction l with
  | nil => simp at hm
  | cons q rest ih =>
    rw [build_stt_services]
    rcases List.mem_cons.mp hm with h1 | h1
    · subst h1
      rw [he]
      exact List.mem_cons_self _ _
    · cases hc : create_stt_service sdk q settings with
      | ok s2 => exact ih h1
      | error e2 => exact List.mem_cons_of_mem _ (ih h1)

/-- A provider of the input list whose construction fails lands, with the
error's message, in the warnings of `build_llm_services`. -/
theorem build_llm_services_warn_intro (sdk : LlmSdk) (settings : Settings)
    (l : List LLMProvider) (p : LLMProvider) (e : FactoryError)
    (hm : p ∈ l) (he : create_llm_service sdk p settings = .error e) :
    (p, e.message) ∈ (build_llm_services sdk settings l).2 := by
  induction l with
  | nil => simp at hm
  | cons q rest ih =>
    rw [build_llm_services]
    rcases List.mem_cons.mp hm with h1 | h1
    · subst h1
      rw [he]
      exact List.mem_cons_self _ _
    · cases hc : create_llm_service sdk q settings with
      | ok s2 => exact ih h1
      | error e2 => exact List.mem_cons_of_mem _ (ih h1)

/-- `mapError` does not change whether an `Except` is a success. -/
theorem exceptIsOk_mapError {ε ε2 α : Type} (f : ε → ε2) (e : Except ε α) :
    exceptIsOk (e.mapError f) = exceptIsOk e := by
  cases e <;> rfl

/-- Whether the STT factory succeeds depends only on whether the vendor
constructor succeeds, not on which instance it returns. -/
theorem create_stt_service_isOk_congr (sdk1 sdk2 : SttSdk)
    (settings : Settings) (p : STTProvider)
    (h : ∀ q key, exceptIsOk (sdk1 q key) = exceptIsOk (sdk2 q key)) :
    exceptIsOk (create_stt_service sdk1 p settings) =
      exceptIsOk (create_stt_service sdk2 p settings) := by
  cases p <;> simp only [create_stt_service] <;> split <;>
    first
      | rfl
      | rw [exceptIsOk_mapError, exceptIsOk_mapError]; exact h _ _

/-- Whether the LLM factory succeeds depends only on whether the vendor
constructor succeeds, not on which instance it returns. -/
theorem create_llm_service_isOk_congr (sdk1 sdk2 : LlmSdk)
    (settings : Settings) (p : LLMProvider)
    (h : ∀ q args, exceptIsOk (sdk1 q args) = exceptIsOk (sdk2 q args)) :
    exceptIsOk (create_llm_service sdk1 p settings) =
      exceptIsOk (create_llm_service sdk2 p settings) := by
  cases p <;> simp only [create_llm_service] <;> split <;>
    first
      | rfl
      | rw [exceptIsOk_mapError, exceptIsOk_mapError]; exact h _ _

/-- Two builds over the same provider list and settings whose per-provider
construction outcomes (success or failure) agree produce the same key
sequence. -/
theorem build_stt_services_keys_congr (sdk1 sdk2 : SttSdk)
    (settings : Settings) (l : List STTProvider)
    (h : ∀ p ∈ l, exceptIsOk (create_stt_service sdk1 p settings) =
      exceptIsOk (create_stt_service sdk2 p settings)) :
    (build_stt_services sdk1 settings l).1.map Prod.fst =
      (build_stt_services sdk2 settings l).1.map Prod.fst := by
  induction l with
  | nil => rfl
  | cons p rest ih =>
    have hp := h p (List.mem_cons_self _ _)
    have hr := ih (fun q hq => h q (List.mem_cons_of_mem _ hq))
    rw [build_stt_services, build_stt_services]
    cases h1 : create_stt_service sdk1 p settings with
    | ok s1 =>
      cases h2 : create_stt_service sdk2 p settings with
      | ok s2 => simpa using hr
      | error e2 => rw [h1, h2] at hp; simp [exceptIsOk] at hp
    | error e1 =>
      cases h2 : create_stt_service sdk2 p settings with
      | ok s2 => rw [h1, h2] at hp; simp [exceptIsOk] at hp
      | error e2 => simpa using hr

/-- Two builds over the same provider list and settings whose per-provider
construction outcomes agree produce the same key sequence (LLM). -/
theorem build_llm_services_keys_congr (sdk1 sdk2 : LlmSdk)
    (settings : Settings) (l : List LLMProvider)
    (h : ∀ p ∈ l, exceptIsOk (create_llm_service sdk1 p settings) =
      exceptIsOk (create_llm_service sdk2 p settings)) :
    (build_llm_services sdk1 settings l).1.map Prod.fst =
      (build_llm_services sdk2 settings l).1.map Prod.fst := by
  induction l with
  | nil => rfl
  | cons p rest ih =>
    have hp := h p (List.mem_cons_self _ _)
    have hr := ih (fun q hq => h q (List.mem_cons_of_mem _ hq))
    rw [build_llm_services, build_llm_services]
    cases h1 : create_llm_service sdk1 p settings with
    | ok s1 =>
      cases h2 : create_llm_service sdk2 p settings with
      | ok s2 => simpa using hr
      | error e2 => rw [h1, h2] at hp; simp [exceptIsOk] at hp
    | error e1 =>
      cases h2 : create_llm_service sdk2 p settings with
      | ok s2 => rw [h1, h2] at hp; simp [exceptIsOk] at hp
      | error e2 => simpa using hr

/-- An STT provider is in the availability list exactly when its required
credential is truthy. -/
theorem mem_get_available_stt_providers (settings : Settings)
    (p : STTProvider) :
    p ∈ get_available_stt_providers settings ↔
      truthy (stt_required_credential p settings) = true := by
  cases p <;>
    · unfold get_available_stt_providers stt_required_credential
      split_ifs <;> simp_all

/-- An LLM provider is in the availability list exactly when its required
credential is truthy. -/
theorem mem_get_available_llm_providers (settings : Settings)
    (p : LLMProvider) :
    p ∈ get_available_llm_providers settings ↔
      truthy (llm_required_credential p settings) = true := by
  cases p <;>
    · unfold get_available_llm_providers llm_required_credential
      split_ifs <;> simp_all

/-- The STT factory returns the missing-credential error exactly when the
provider's required credential is absent or empty. -/
theorem create_stt_service_missing_iff (sdk : SttSdk) (p : STTProvider)
    (settings : Settings) :
    (∃ msg, create_stt_service sdk p settings =
      .error (.missingCredential msg)) ↔
      truthy (stt_required_credential p settings) = false := by
  cases p with
  | assemblyai =>
    simp only [create_stt_service, stt_required_credential]
    cases htruthy : truthy settings.assemblyai_api_key with
    | false => simp
    | true =>
      cases hs : sdk .assemblyai (settings.assemblyai_api_key.getD "") <;>
        simp [Except.mapError, hs]
  | cartesia =>
    simp only [create_stt_service, stt_required_credential]
    cases htruthy : truthy settings.cartesia_api_key with
    | false => simp
    | true =>
      cases hs : sdk .cartesia (settings.cartesia_api_key.getD "") <;>
        simp [Except.mapError, hs]
  | deepgram =>
    simp only [create_stt_service, stt_required_credential]
    cases htruthy : truthy settings.deepgram_api_key with
    | false => simp
    | true =>
      cases hs : sdk .deepgram (settings.deepgram_api_key.getD "") <;>
        simp [Except.mapError, hs]

/-- The LLM factory returns the missing-credential error exactly when the
provider's required credential is absent or empty. -/
theorem create_llm_service_missing_iff (sdk : LlmSdk) (p : LLMProvider)
    (settings : Settings) :
    (∃ msg, create_llm_service sdk p settings =
      .error (.missingCredential msg)) ↔
      truthy (llm_required_credential p settings) = false := by
  cases p with
  | openai =>
    simp only [create_llm_service, llm_required_credential]
    cases htruthy : truthy settings.openai_api_key with
    | false => simp
    | true =>
      cases hs : sdk .openai { api_key := settings.openai_api_key.getD "" } <;>
        simp [Except.mapError, hs]
  | gemini =>
    simp only [create_llm_service, llm_required_credential]
    cases htruthy : truthy settings.google_api_key with
    | false => simp
    | true =>
      cases hs : sdk .gemini { api_key := settings.google_api_key.getD "" } <;>
        simp [Except.mapError, hs]
  | anthropic =>
    simp only [create_llm_service, llm_required_credential]
    cases htruthy : truthy settings.anthropic_api_key with
    | false => simp
    | true =>
      cases hs :
          sdk .anthropic { api_key := settings.anthropic_api_key.getD "" } <;>
        simp [Except.mapError, hs]
  | cerebras =>
    simp only [create_llm_service, llm_required_credential]
    cases htruthy : truthy settings.cerebras_api_key with
    | false => simp
    | true =>
      cases hs :
          sdk .cerebras
            { api_key := settings.cerebras_api_key.getD ""
              retry_on_timeout := some true
              retry_timeout_secs := some 10 } <;>
        simp [Except.mapError, hs]
  | groq =>
    simp only [create_llm_service, llm_required_credential]
    cases htruthy : truthy settings.groq_api_key with
    | false => simp
    | true =>
      cases hs : sdk .groq { api_key := settings.groq_api_key.getD "" } <;>
        simp [Except.mapError, hs]

/-- When the required credential is missing the STT factory's result does
not depend on the vendor constructors: no construction is attempted. -/
theorem create_stt_service_missing_independent (p : STTProvider)
    (settings : Settings)
    (h : truthy (stt_required_credential p settings) = false)
    (sdk1 sdk2 : SttSdk) :
    create_stt_service sdk1 p settings = create_stt_service sdk2 p settings := by
  cases p <;> simp_all [create_stt_service, stt_required_credential]

/-- When the required credential is missing the LLM factory's result does
not depend on the vendor constructors: no construction is attempted. -/
theorem create_llm_service_missing_independent (p : LLMProvider)
    (settings : Settings)
    (h : truthy (llm_required_credential p settings) = false)
    (sdk1 sdk2 : LlmSdk) :
    create_llm_service sdk1 p settings = create_llm_service sdk2 p settings := by
  cases p <;> simp_all [create_llm_service, llm_required_credential]

/-- C1: For every credentials snapshot, the registry build
(create_all_available_stt_services and create_all_available_llm_services)
completes and returns a (possibly empty) mapping and never raises: if the
factory raises any error for one available provider, that provider is
skipped (with a warning recorded) and every other successfully
constructed provider is still present in the result.  (The build is a
total function here, so completion without raising is by construction;
the content is the skip-with-warning and preservation behaviour.) -/
theorem c1_build_tolerates_partial_failure (settings : Settings)
    (sttSdk : SttSdk) (llmSdk : LlmSdk) :
    (∀ p ∈ get_available_stt_providers settings,
      (∀ e, create_stt_service sttSdk p settings = .error e →
        p ∉ (create_all_available_stt_services sttSdk settings).1.map Prod.fst ∧
        (p, e.message) ∈ (create_all_available_stt_services sttSdk settings).2) ∧
      (∀ service, create_stt_service sttSdk p settings = .ok service →
        (p, service) ∈ (create_all_available_stt_services sttSdk settings).1)) ∧
    (∀ p ∈ get_available_llm_providers settings,
      (∀ e, create_llm_service llmSdk p settings = .error e →
        p ∉ (create_all_available_llm_services llmSdk settings).1.map Prod.fst ∧
        (p, e.message) ∈ (create_all_available_llm_services llmSdk settings).2) ∧
      (∀ service, create_llm_service llmSdk p settings = .ok service →
        (p, service) ∈ (create_all_available_llm_services llmSdk settings).1)) := by
  constructor
  · intro p hp
    refine ⟨fun e he => ⟨?_, ?_⟩, fun service hs => ?_⟩
    · intro hmem
      rw [List.mem_map] at hmem
      obtain ⟨pr, hpr, hfst⟩ := hmem
      obtain ⟨_, hok⟩ :=
        build_stt_services_mem_elim sttSdk settings
          (get_available_stt_providers settings) pr hpr
      rw [hfst, he] at hok
      exact absurd hok (by simp)
    · exact build_stt_services_warn_intro sttSdk settings _ p e hp he
    · exact build_stt_services_mem_intro sttSdk settings _ p service hp hs
  · intro p hp
    refine ⟨fun e he => ⟨?_, ?_⟩, fun service hs => ?_⟩
    · intro hmem
      rw [List.mem_map] at hmem
      obtain ⟨pr, hpr, hfst⟩ := hmem
      obtain ⟨_, hok⟩ :=
        build_llm_services_mem_elim llmSdk settings
          (get_available_llm_providers settings) pr hpr
      rw [hfst, he] at hok
      exact absurd hok (by simp)
    · exact build_llm_services_warn_intro llmSdk settings _ p e hp he
    · exact build_llm_services_mem_intro llmSdk settings _ p service hp hs

/-- Witness for C1: with every credential configured, a Cartesia vendor
constructor that raises, and a Cerebras vendor constructor that raises,
those two providers are skipped with the warning recorded while the other
providers are still constructed. -/
theorem c1_build_tolerates_partial_failure_witness :
    STTProvider.cartesia ∉
      (create_all_available_stt_services failing_cartesia_sdk
        all_keys_settings).1.map Prod.fst ∧
    (STTProvider.cartesia, "bad key format") ∈
      (create_all_available_stt_services failing_cartesia_sdk
        all_keys_settings).2 ∧
    (STTProvider.assemblyai, ({} : ServiceInstance)) ∈
      (create_all_available_stt_services failing_cartesia_sdk
        all_keys_settings).1 ∧
    LLMProvider.cerebras ∉
      (create_all_available_llm_services failing_cerebras_sdk
        all_keys_settings).1.map Prod.fst ∧
    (LLMProvider.openai, ({} : ServiceInstance)) ∈
      (create_all_available_llm_services failing_cerebras_sdk
        all_keys_settings).1 := by
  obtain ⟨hstt, hllm⟩ :=
    c1_build_tolerates_partial_failure all_keys_settings
      failing_cartesia_sdk failing_cerebras_sdk
  have hce : create_stt_service failing_cartesia_sdk .cartesia
      all_keys_settings = .error (.constructionFailure "bad key format") :=
    rfl
  have hbe : create_llm_service failing_cerebras_sdk .cerebras
      all_keys_settings = .error (.constructionFailure "bad key format") :=
    rfl
  refine ⟨(hstt .cartesia (by decide)).1 _ hce |>.1,
    (hstt .cartesia (by decide)).1 _ hce |>.2,
    (hstt .assemblyai (by decide)).2 {} rfl,
    (hllm .cerebras (by decide)).1 _ hbe |>.1,
    (hllm .openai (by decide)).2 {} rfl⟩

/-- C2: For every credentials snapshot and each kind, the build terminates
(it is a total function) and the key set of the returned registry is a
subset of that kind's catalog of provider identifiers. -/
theorem c2_registry_keys_subset_catalog (settings : Settings)
    (sttSdk : SttSdk) (llmSdk : LlmSdk) :
    (∀ p ∈ (create_all_available_stt_services sttSdk settings).1.map Prod.fst,
      p ∈ STTProvider.catalog) ∧
    (∀ p ∈ (create_all_available_llm_services llmSdk settings).1.map Prod.fst,
      p ∈ LLMProvider.catalog) := by
  constructor
  · intro p _
    cases p <;> decide
  · intro p _
    cases p <;> decide

/-- Witness for C2: with every credential present and succeeding vendor
constructors, concrete registry keys are in the respective catalogs. -/
theorem c2_registry_keys_subset_catalog_witness :
    STTProvider.assemblyai ∈
      (create_all_available_stt_services demo_stt_sdk
        all_keys_settings).1.map Prod.fst ∧
    STTProvider.assemblyai ∈ STTProvider.catalog ∧
    LLMProvider.groq ∈
      (create_all_available_llm_services demo_llm_sdk
        all_keys_settings).1.map Prod.fst ∧
    LLMProvider.groq ∈ LLMProvider.catalog := by
  refine ⟨by decide, ?_, by decide, ?_⟩
  · exact (c2_registry_keys_subset_catalog all_keys_settings demo_stt_sdk
      demo_llm_sdk).1 .assemblyai (by decide)
  · exact (c2_registry_keys_subset_catalog all_keys_settings demo_stt_sdk
      demo_llm_sdk).2 .groq (by decide)

/-- C3: For every provider identifier and credentials snapshot, if the
credential required by the identifier is absent or empty, the identifier
is not a key of the registry returned by the build for its kind. -/
theorem c3_absent_credential_not_in_keys (settings : Settings)
    (sttSdk : SttSdk) (llmSdk : LlmSdk) (p : STTProvider) (q : LLMProvider)
    (hp : truthy (stt_required_credential p settings) = false)
    (hq : truthy (llm_required_credential q settings) = false) :
    p ∉ (create_all_available_stt_services sttSdk settings).1.map Prod.fst ∧
    q ∉ (create_all_available_llm_services llmSdk settings).1.map Prod.fst := by
  constructor
  · intro hmem
    rw [List.mem_map] at hmem
    obtain ⟨pr, hpr, hfst⟩ := hmem
    obtain ⟨hm, _⟩ :=
      build_stt_services_mem_elim sttSdk settings
        (get_available_stt_providers settings) pr hpr
    rw [hfst, mem_get_available_stt_providers, hp] at hm
    exact absurd hm (by simp)
  · intro hmem
    rw [List.mem_map] at hmem
    obtain ⟨pr, hpr, hfst⟩ := hmem
    obtain ⟨hm, _⟩ :=
      build_llm_services_mem_elim llmSdk settings
        (get_available_llm_providers settings) pr hpr
    rw [hfst, mem_get_available_llm_providers, hq] at hm
    exact absurd hm (by simp)

/-- Witness for C3: with only Cartesia and Cerebras keys configured,
AssemblyAI and OpenAI are not registry keys. -/
theorem c3_absent_credential_not_in_keys_witness :
    truthy (stt_required_credential .assemblyai
      cartesia_cerebras_settings) = false ∧
    truthy (llm_required_credential .openai
      cartesia_cerebras_settings) = false ∧
    STTProvider.assemblyai ∉
      (create_all_available_stt_services demo_stt_sdk
        cartesia_cerebras_settings).1.map Prod.fst ∧
    LLMProvider.openai ∉
      (create_all_available_llm_services demo_llm_sdk
        cartesia_cerebras_settings).1.map Prod.fst := by
  obtain ⟨h1, h2⟩ :=
    c3_absent_credential_not_in_keys cartesia_cerebras_settings
      demo_stt_sdk demo_llm_sdk .assemblyai .openai (by decide) (by decide)
  exact ⟨by decide, by decide, h1, h2⟩

/-- C4: For every catalog provider identifier and credentials snapshot,
the service factory raises the missing-credential error if and only if
the credential required by that provider is absent or empty; and in that
case it returns without constructing an instance (the result does not
depend on the vendor constructors at all, so no construction or network
call is attempted). -/
theorem c4_factory_missing_credential_iff (settings : Settings)
    (sttSdk : SttSdk) (llmSdk : LlmSdk) (p : STTProvider) (q : LLMProvider) :
    ((∃ msg, create_stt_service sttSdk p settings =
        .error (.missingCredential msg)) ↔
      truthy (stt_required_credential p settings) = false) ∧
    (truthy (stt_required_credential p settings) = false →
      ∀ sdk2 : SttSdk,
        create_stt_service sdk2 p settings =
          create_stt_service sttSdk p settings) ∧
    ((∃ msg, create_llm_service llmSdk q settings =
        .error (.missingCredential msg)) ↔
      truthy (llm_required_credential q settings) = false) ∧
    (truthy (llm_required_credential q settings) = false →
      ∀ sdk2 : LlmSdk,
        create_llm_service sdk2 q settings =
          create_llm_service llmSdk q settings) := by
  refine ⟨create_stt_service_missing_iff sttSdk p settings,
    fun h sdk2 => create_stt_service_missing_independent p settings h sdk2 sttSdk,
    create_llm_service_missing_iff llmSdk q settings,
    fun h sdk2 => create_llm_service_missing_independent q settings h sdk2 llmSdk⟩

/-- Witness for C4: with only Cartesia and Cerebras keys configured, the
factories fail with the missing-credential error on AssemblyAI and
OpenAI, identically for different vendor-constructor oracles. -/
theorem c4_factory_missing_credential_iff_witness :
    (∃ msg, create_stt_service demo_stt_sdk .assemblyai
      cartesia_cerebras_settings = .error (.missingCredential msg)) ∧
    create_stt_service failing_cartesia_sdk .assemblyai
        cartesia_cerebras_settings =
      create_stt_service demo_stt_sdk .assemblyai cartesia_cerebras_settings ∧
    (∃ msg, create_llm_service demo_llm_sdk .openai
      cartesia_cerebras_settings = .error (.missingCredential msg)) ∧
    create_llm_service failing_cerebras_sdk .openai
        cartesia_cerebras_settings =
      create_llm_service demo_llm_sdk .openai cartesia_cerebras_settings := by
  obtain ⟨h1, h2, h3, h4⟩ :=
    c4_factory_missing_credential_iff cartesia_cerebras_settings
      demo_stt_sdk demo_llm_sdk .assemblyai .openai
  exact ⟨h1.mpr (by decide), h2 (by decide) _, h3.mpr (by decide),
    h4 (by decide) _⟩

/-- C5: If GET /api/providers/available is served before
set_available_providers has been called (the module-level registry still
holds its initial empty dictionaries), the endpoint returns empty stt and
llm lists and does not raise (it is a total function of the state). -/
theorem c5_uninitialized_registry_empty_response :
    get_available_providers initial_registry_state =
      { stt := [], llm := [] } :=
  rfl

/-- C6: For every fixed credentials snapshot, running the registry build
twice yields the same key set both times: two runs whose vendor
constructions succeed and fail identically (the constructed instance
objects may differ arbitrarily) produce the same key sequence for each
kind. -/
theorem c6_available_set_deterministic (settings : Settings)
    (sttSdk1 sttSdk2 : SttSdk) (llmSdk1 llmSdk2 : LlmSdk)
    (hstt : ∀ p key, exceptIsOk (sttSdk1 p key) = exceptIsOk (sttSdk2 p key))
    (hllm : ∀ p args,
      exceptIsOk (llmSdk1 p args) = exceptIsOk (llmSdk2 p args)) :
    (create_all_available_stt_services sttSdk1 settings).1.map Prod.fst =
      (create_all_available_stt_services sttSdk2 settings).1.map Prod.fst ∧
    (create_all_available_llm_services llmSdk1 settings).1.map Prod.fst =
      (create_all_available_llm_services llmSdk2 settings).1.map Prod.fst := by
  constructor
  · exact build_stt_services_keys_congr sttSdk1 sttSdk2 settings _
      (fun p _ => create_stt_service_isOk_congr sttSdk1 sttSdk2 settings p hstt)
  · exact build_llm_services_keys_congr llmSdk1 llmSdk2 settings _
      (fun p _ => create_llm_service_isOk_congr llmSdk1 llmSdk2 settings p hllm)

/-- Witness for C6: two runs over the same all-keys snapshot, returning
different instance objects, yield the same key sequences. -/
theorem c6_available_set_deterministic_witness :
    (create_all_available_stt_services demo_stt_sdk
        all_keys_settings).1.map Prod.fst =
      (create_all_available_stt_services demo_stt_sdk_b
        all_keys_settings).1.map Prod.fst ∧
    (create_all_available_llm_services demo_llm_sdk
        all_keys_settings).1.map Prod.fst =
      (create_all_available_llm_services demo_llm_sdk_b
        all_keys_settings).1.map Prod.fst :=
  c6_available_set_deterministic all_keys_settings demo_stt_sdk demo_stt_sdk_b
    demo_llm_sdk demo_llm_sdk_b (fun _ _ => rfl) (fun _ _ => rfl)

/-- C7: If the credentials contain only a Cartesia STT key and a Cerebras
LLM key (every other credential absent or empty) and the two vendor
constructions succeed, GET /api/providers/available returns exactly one
STT entry (value "cartesia", label "Cartesia", not local) and one LLM
entry (value "cerebras", label "Cerebras", not local). -/
theorem c7_cartesia_cerebras_scenario (settings : Settings)
    (sttSdk : SttSdk) (llmSdk : LlmSdk)
    (h1 : truthy settings.cartesia_api_key = true)
    (h2 : truthy settings.assemblyai_api_key = false)
    (h3 : truthy settings.deepgram_api_key = false)
    (h4 : truthy settings.cerebras_api_key = true)
    (h5 : truthy settings.openai_api_key = false)
    (h6 : truthy settings.google_api_key = false)
    (h7 : truthy settings.anthropic_api_key = false)
    (h8 : truthy settings.groq_api_key = false)
    (hok1 : exceptIsOk (create_stt_service sttSdk .cartesia settings) = true)
    (hok2 : exceptIsOk (create_llm_service llmSdk .cerebras settings) = true) :
    ∃ m1 m2,
      get_available_providers (startup_registry_state sttSdk llmSdk settings) =
        { stt := [{ value := "cartesia", label := "Cartesia",
                    is_local := false, model := m1 }],
          llm := [{ value := "cerebras", label := "Cerebras",
                    is_local := false, model := m2 }] } := by
  have havail1 : get_available_stt_providers settings = [.cartesia] := by
    simp [get_available_stt_providers, h1, h2, h3]
  have havail2 : get_available_llm_providers settings = [.cerebras] := by
    simp [get_available_llm_providers, h4, h5, h6, h7, h8]
  obtain ⟨svc1, hsvc1⟩ :
      ∃ s, create_stt_service sttSdk .cartesia settings = .ok s := by
    cases hc : create_stt_service sttSdk .cartesia settings with
    | ok s => exact ⟨s, rfl⟩
    | error e => rw [hc] at hok1; simp [exceptIsOk] at hok1
  obtain ⟨svc2, hsvc2⟩ :
      ∃ s, create_llm_service llmSdk .cerebras settings = .ok s := by
    cases hc : create_llm_service llmSdk .cerebras settings with
    | ok s => exact ⟨s, rfl⟩
    | error e => rw [hc] at hok2; simp [exceptIsOk] at hok2
  have hstt : (create_all_available_stt_services sttSdk settings).1 =
      [(.cartesia, svc1)] := by
    unfold create_all_available_stt_services
    rw [havail1]
    simp [build_stt_services, hsvc1]
  have hllm : (create_all_available_llm_services llmSdk settings).1 =
      [(.cerebras, svc2)] := by
    unfold create_all_available_llm_services
    rw [havail2]
    simp [build_llm_services, hsvc2]
  refine ⟨published_model svc1, published_model svc2, ?_⟩
  simp only [startup_registry_state, set_available_providers,
    get_available_providers, hstt, hllm, List.map]
  rfl

/-- Witness for C7: the scenario instantiated with concrete credentials
holding only the two keys and with succeeding vendor constructors. -/
theorem c7_cartesia_cerebras_scenario_witness :
    ∃ m1 m2,
      get_available_providers (startup_registry_state demo_stt_sdk
          demo_llm_sdk cartesia_cerebras_settings) =
        { stt := [{ value := "cartesia", label := "Cartesia",
                    is_local := false, model := m1 }],
          llm := [{ value := "cerebras", label := "Cerebras",
                    is_local := false, model := m2 }] } :=
  c7_cartesia_cerebras_scenario cartesia_cerebras_settings demo_stt_sdk
    demo_llm_sdk (by decide) (by decide) (by decide) (by decide) (by decide)
    (by decide) (by decide) (by decide) rfl rfl

/-- C8: For every entry in the GET /api/providers/available response, the
model field is populated from the corresponding service instance's
model-name attribute when the instance exposes one (the attribute exists
and holds a non-empty name), and is null otherwise. -/
theorem c8_model_field_from_instance (st : RegistryState) :
    (∀ p svc, (p, svc) ∈ st.stt_services →
      ∃ info, info ∈ (get_available_providers st).stt ∧
        info.value = p.value ∧
        (∀ m, svc.has_model_name = true → svc.model_name = some m →
          m ≠ "" → info.model = some m) ∧
        ((svc.has_model_name = false ∨ svc.model_name = none ∨
            svc.model_name = some "") → info.model = none)) ∧
    (∀ p svc, (p, svc) ∈ st.llm_services →
      ∃ info, info ∈ (get_available_providers st).llm ∧
        info.value = p.value ∧
        (∀ m, svc.has_model_name = true → svc.model_name = some m →
          m ≠ "" → info.model = some m) ∧
        ((svc.has_model_name = false ∨ svc.model_name = none ∨
            svc.model_name = some "") → info.model = none)) := by
  constructor
  · intro p svc hmem
    refine ⟨{ value := p.value
              label := get_stt_provider_labels p
              is_local := p.value == STTProviderId_WHISPER
              model := published_model svc }, ?_, rfl, ?_, ?_⟩
    · simp only [get_available_providers]
      exact List.mem_map_of_mem _ hmem
    · intro m hattr hsome hne
      simp [published_model, hattr, hsome, hne]
    · rintro (h | h | h) <;> simp [published_model, h]
  · intro p svc hmem
    refine ⟨{ value := p.value
              label := get_llm_provider_labels p
              is_local := p.value == LLMProviderId_OLLAMA
              model := published_model svc }, ?_, rfl, ?_, ?_⟩
    · simp only [get_available_providers]
      exact List.mem_map_of_mem _ hmem
    · intro m hattr hsome hne
      simp [published_model, hattr, hsome, hne]
    · rintro (h | h | h) <;> simp [published_model, h]

/-- Witness for C8: in a sample installed registry, an instance exposing
the model name "ink" is published with it; an instance without the
attribute and an instance with an empty model name are published with a
null model. -/
theorem c8_model_field_from_instance_witness :
    (∃ info, info ∈ (get_available_providers demo_registry_state).stt ∧
      info.value = "cartesia" ∧ info.model = some "ink") ∧
    (∃ info, info ∈ (get_available_providers demo_registry_state).stt ∧
      info.value = "deepgram" ∧ info.model = none) ∧
    (∃ info, info ∈ (get_available_providers demo_registry_state).llm ∧
      info.value = "cerebras" ∧ info.model = none) := by
  obtain ⟨hstt, hllm⟩ := c8_model_field_from_instance demo_registry_state
  obtain ⟨i1, hm1, hv1, hp1, _⟩ :=
    hstt .cartesia { has_model_name := true, model_name := some "ink" }
      (by decide)
  obtain ⟨i2, hm2, hv2, _, hn2⟩ := hstt .deepgram {} (by decide)
  obtain ⟨i3, hm3, hv3, _, hn3⟩ :=
    hllm .cerebras { has_model_name := true, model_name := some "" }
      (by decide)
  exact ⟨⟨i1, hm1, hv1, hp1 "ink" rfl rfl (by decide)⟩,
    ⟨i2, hm2, hv2, hn2 (Or.inl rfl)⟩,
    ⟨i3, hm3, hv3, hn3 (Or.inr (Or.inr rfl))⟩⟩

/-- C9: Whenever the Cerebras LLM provider is constructed with its
credential present, the factory passes the same hard-coded non-credential
parameters every time: retries enabled with a ten-second retry timeout,
regardless of any other credential or caller-supplied data. -/
theorem c9_cerebras_fixed_retry_args (settings : Settings) (sdk : LlmSdk)
    (h : truthy settings.cerebras_api_key = true) :
    create_llm_service sdk .cerebras settings =
      (sdk .cerebras
        { api_key := settings.cerebras_api_key.getD ""
          retry_on_timeout := some true
          retry_timeout_secs := some 10 }).mapError
        FactoryError.constructionFailure := by
  simp [create_llm_service, h]

/-- Witness for C9: with the all-keys snapshot the Cerebras construction
receives exactly the key "bk" plus the fixed retry parameters. -/
theorem c9_cerebras_fixed_retry_args_witness :
    truthy all_keys_settings.cerebras_api_key = true ∧
    create_llm_service demo_llm_sdk .cerebras all_keys_settings =
      (demo_llm_sdk .cerebras
        { api_key := "bk"
          retry_on_timeout := some true
          retry_timeout_secs := some 10 }).mapError
        FactoryError.constructionFailure :=
  ⟨by decide,
    c9_cerebras_fixed_retry_args all_keys_settings demo_llm_sdk (by decide)⟩

/-- C10: For every registry contents the build over the STTProvider and
LLMProvider catalogs can produce, every entry of the
GET /api/providers/available response has is_local false: the publisher
marks an entry local only when its key equals the whisper (STT) or
ollama (LLM) identifier, and neither identifier occurs among those
catalogs' string values. -/
theorem c10_no_local_providers (settings : Settings) (sttSdk : SttSdk)
    (llmSdk : LlmSdk) :
    ((get_available_providers
        (startup_registry_state sttSdk llmSdk settings)).stt.all
      (fun info => !info.is_local)) = true ∧
    ((get_available_providers
        (startup_registry_state sttSdk llmSdk settings)).llm.all
      (fun info => !info.is_local)) = true ∧
    (STTProvider.catalog.map STTProvider.value).contains
      STTProviderId_WHISPER = false ∧
    (LLMProvider.catalog.map LLMProvider.value).contains
      LLMProviderId_OLLAMA = false := by
  refine ⟨?_, ?_, by decide, by decide⟩
  · rw [List.all_eq_true]
    intro info hinfo
    simp only [get_available_providers, startup_registry_state,
      set_available_providers, List.mem_map] at hinfo
    obtain ⟨ps, _, rfl⟩ := hinfo
    obtain ⟨p, svc⟩ := ps
    cases p <;> rfl
  · rw [List.all_eq_true]
    intro info hinfo
    simp only [get_available_providers, startup_registry_state,
      set_available_providers, List.mem_map] at hinfo
    obtain ⟨ps, _, rfl⟩ := hinfo
    obtain ⟨p, svc⟩ := ps
    cases p <;> rfl

end Tambourine
